import Mathlib

/-!
Shallow embedding of the NutriTrack nutrition-tracking application, covering
the food-detection enrichment pipeline (supabase/functions/detect-food/index.ts),
the client-side portion-adjustment and aggregation logic
(src/components/FoodDetection.tsx), the meal-save / daily-summary fold and the
meal-delete flow (MainApp.handleFoodConfirmed, MealHistory.deleteMeal), and the
rule-based recommendation generator (MealRecommendations.generateRecommendations).

JavaScript numbers are modelled as exact rationals (ℚ); `Math.round` is
modelled as `jsRound` (round half toward positive infinity, which is exactly
floor(x + 1/2)), `Math.floor` as `Int.floor`.  Database string identifiers are
modelled by the inductive `FoodId`.
-/

/-- One row of the `food_items` nutrition catalog.  The source reads
`calories_per_100g`, `protein_per_100g`, `carbs_per_100g`, `fat_per_100g`
(stored as numeric strings, parsed with `parseFloat`; modelled directly as ℚ),
plus `id` and `name`.  Unused columns (fiber, category) are omitted. -/
structure CatalogEntry where
  id : Nat
  name : String
  calories_per_100g : ℚ
  protein_per_100g : ℚ
  carbs_per_100g : ℚ
  fat_per_100g : ℚ
deriving DecidableEq

/-- A vision-inference candidate, interface `FoodItem` of detect-food/index.ts. -/
structure FoodItem where
  name : String
  portionGrams : ℚ
  confidence : ℚ
deriving DecidableEq

/-- Identifier of an enriched food record: either the catalog row id
(`dbFood.id`) or the synthesized temporary id built for unmatched foods.
The source synthesizes the string with the backquote form of
temp-, Date.now() and Math.random(); it is fresh per produced record, and is
modelled as the record's position in the enrichment pass. -/
inductive FoodId where
  | db (idVal : Nat)
  | temp (idx : Nat)
deriving DecidableEq

/-- The enriched record emitted by the detect-food function, one per candidate. -/
structure EnrichedFood where
  id : FoodId
  name : String
  portionGrams : ℚ
  calories : ℚ
  protein : ℚ
  carbs : ℚ
  fat : ℚ
  confidence : ℚ
  notInDatabase : Bool
deriving DecidableEq

/-- The spec's `matched` flag: a catalog entry was found.  The source encodes
this as the absence of the `notInDatabase : true` marker. -/
def EnrichedFood.matched (r : EnrichedFood) : Bool :=
  ! r.notInDatabase

/-- JavaScript `Math.round`: rounds to the nearest integer, ties toward
positive infinity; equal to floor(x + 1/2) for every real input. -/
def jsRound (q : ℚ) : ℤ :=
  ⌊q + 1 / 2⌋

/-- The source's 1-decimal rounding idiom `Math.round(x * 10) / 10`. -/
def round1 (q : ℚ) : ℚ :=
  ((jsRound (q * 10) : ℤ) : ℚ) / 10

/-- Boolean test: the first list is a leading segment of the second. -/
def isPre : List Char → List Char → Bool
  | [], _ => true
  | _ :: _, [] => false
  | a :: as, b :: bs => a == b && isPre as bs

/-- Boolean substring containment of the first list in the second. -/
def containsStr (needle : List Char) : List Char → Bool
  | [] => needle.isEmpty
  | c :: rest => isPre needle (c :: rest) || containsStr needle rest

/-- SQL `ilike name %candidate%`: case-insensitive containment of the candidate
name in the catalog name, modelled by lowercasing both sides. -/
def nameMatches (catalogName candidateName : String) : Bool :=
  containsStr (candidateName.toList.map Char.toLower) (catalogName.toList.map Char.toLower)

/-- The catalog lookup of detect-food/index.ts: `ilike` with `limit(1)` takes
the first row of the store's ordering whose name contains the candidate name,
modelled as `find?` over the catalog in that order. -/
def catalogMatch (catalog : List CatalogEntry) (candidateName : String) : Option CatalogEntry :=
  catalog.find? (fun entry => nameMatches entry.name candidateName)

/-- Enrichment of a single candidate (the body of `detectedFoods.map` in
detect-food/index.ts).  `idx` is the candidate's position, used only to
synthesize the temporary id of an unmatched record. -/
def enrichOne (catalog : List CatalogEntry) (idx : Nat) (food : FoodItem) : EnrichedFood :=
  match catalogMatch catalog food.name with
  | some dbFood =>
    let multiplier := food.portionGrams / 100
    { id := FoodId.db dbFood.id
      name := dbFood.name
      portionGrams := food.portionGrams
      calories := ((jsRound (dbFood.calories_per_100g * multiplier) : ℤ) : ℚ)
      protein := round1 (dbFood.protein_per_100g * multiplier)
      carbs := round1 (dbFood.carbs_per_100g * multiplier)
      fat := round1 (dbFood.fat_per_100g * multiplier)
      confidence := food.confidence
      notInDatabase := false }
  | none =>
    { id := FoodId.temp idx
      name := food.name
      portionGrams := food.portionGrams
      calories := 0
      protein := 0
      carbs := 0
      fat := 0
      confidence := food.confidence
      notInDatabase := true }

/-- Position-indexed enrichment pass starting at index `k`. -/
def enrichFrom (catalog : List CatalogEntry) : Nat → List FoodItem → List EnrichedFood
  | _, [] => []
  | k, f :: fs => enrichOne catalog k f :: enrichFrom catalog (k + 1) fs

/-- `enrichedFoods` of detect-food/index.ts: the whole candidate list enriched
in order. -/
def enrich (catalog : List CatalogEntry) (foods : List FoodItem) : List EnrichedFood :=
  enrichFrom catalog 0 foods

/-- Body shapes of the detect-food HTTP responses. -/
inductive RespBody where
  | errorMissingUrl
  | foodsEmptyWithMessage (message : String)
  | foodsList (foods : List EnrichedFood)
  | errorDetect (message : String)
deriving DecidableEq

/-- An HTTP response of the detect-food function. -/
structure Response where
  status : Nat
  body : RespBody
deriving DecidableEq

/-- Outcome of the vision-inference call (the Gemini fetch, its `.json()`
parse, the `candidates` check, the array-regex match, and `JSON.parse`):
`throws` covers a rejected fetch (network error or timeout) or unparseable
transport JSON; `noCandidates` a JSON body without `candidates[0]`;
`noArrayInText` candidate text with no bracketed array substring; `badArray`
an array substring on which `JSON.parse` throws; `parsed` a parsed list. -/
inductive VisionOutcome where
  | throws
  | noCandidates
  | noArrayInText
  | badArray
  | parsed (foods : List FoodItem)
deriving DecidableEq

/-- The detection flow guarded by `if (GOOGLE_AI_KEY)`: with no key the call is
skipped and `detectedFoods` stays empty; with a key, a thrown fetch or a
throwing `JSON.parse` escapes to the handler's catch (`Except.error`), while a
missing candidate or missing array substring leaves `detectedFoods` empty. -/
def runVision : Bool → VisionOutcome → Except Unit (List FoodItem)
  | false, _ => Except.ok []
  | true, VisionOutcome.throws => Except.error ()
  | true, VisionOutcome.noCandidates => Except.ok []
  | true, VisionOutcome.noArrayInText => Except.ok []
  | true, VisionOutcome.badArray => Except.error ()
  | true, VisionOutcome.parsed fs => Except.ok fs

/-- The Deno.serve handler of detect-food/index.ts for a POST request (the
OPTIONS preflight branch is omitted).  `imageUrlPresent` models the truthiness
of `imageUrl`; `imageFetchOk` whether the image fetch itself succeeds (a
rejected image fetch also lands in the catch); anything that throws inside the
`try` returns status 500 with an error body. -/
def detectFoodHandler (imageUrlPresent imageFetchOk hasKey : Bool)
    (v : VisionOutcome) (catalog : List CatalogEntry) : Response :=
  if !imageUrlPresent then
    ⟨400, RespBody.errorMissingUrl⟩
  else if !imageFetchOk then
    ⟨500, RespBody.errorDetect ("Failed to detect food")⟩
  else
    match runVision hasKey v with
    | Except.error _ => ⟨500, RespBody.errorDetect ("Failed to detect food")⟩
    | Except.ok [] => ⟨200, RespBody.foodsEmptyWithMessage ("No foods detected. Please add manually.")⟩
    | Except.ok (f :: fs) => ⟨200, RespBody.foodsList (enrich catalog (f :: fs))⟩

/-- The client-side record, interface `DetectedFood` of FoodDetection.tsx. -/
structure DetectedFood where
  id : FoodId
  name : String
  portionGrams : ℚ
  calories : ℚ
  protein : ℚ
  carbs : ℚ
  fat : ℚ
  notInDatabase : Bool
deriving DecidableEq

/-- The per-record rescale performed inside `updatePortion` of
FoodDetection.tsx: ratio is relative to the record's current portion; the five
fields portionGrams/calories/protein/carbs/fat are replaced together and all
other fields are kept by the object spread. -/
def rescaleFood (food : DetectedFood) (grams : ℚ) : DetectedFood :=
  let ratio := grams / food.portionGrams
  { food with
      portionGrams := grams
      calories := ((jsRound (food.calories * ratio) : ℤ) : ℚ)
      protein := round1 (food.protein * ratio)
      carbs := round1 (food.carbs * ratio)
      fat := round1 (food.fat * ratio) }

/-- `updatePortion` of FoodDetection.tsx: map over the list, rescaling exactly
the records whose id equals the edited id.  No validation of `grams` is
performed by the source (the numeric input's `min` attribute is UI-only). -/
def updatePortion (foods : List DetectedFood) (editId : FoodId) (grams : ℚ) : List DetectedFood :=
  foods.map (fun food => if food.id = editId then rescaleFood food grams else food)

/-- Per-meal / per-day nutrient totals. -/
structure Totals where
  calories : ℚ
  protein : ℚ
  carbs : ℚ
  fat : ℚ
deriving DecidableEq

/-- Fieldwise sum of totals. -/
def Totals.add (a b : Totals) : Totals :=
  ⟨a.calories + b.calories, a.protein + b.protein, a.carbs + b.carbs, a.fat + b.fat⟩

/-- The all-zero totals. -/
def Totals.zero : Totals :=
  ⟨0, 0, 0, 0⟩

/-- One reduce step of `totalNutrition` in FoodDetection.tsx. -/
def addFood (acc : Totals) (food : DetectedFood) : Totals :=
  ⟨acc.calories + food.calories, acc.protein + food.protein,
   acc.carbs + food.carbs, acc.fat + food.fat⟩

/-- `totalNutrition` of FoodDetection.tsx: a single reduce over the detected
foods starting from all-zero totals. -/
def totalNutrition (foods : List DetectedFood) : Totals :=
  foods.foldl addFood ⟨0, 0, 0, 0⟩

/-- The four separate reduces at the top of `handleFoodConfirmed` in the main
app component (totalCalories, totalProtein, totalCarbs, totalFat). -/
def totalsOfFoods (foods : List DetectedFood) : Totals :=
  { calories := foods.foldl (fun s f => s + f.calories) 0
    protein := foods.foldl (fun s f => s + f.protein) 0
    carbs := foods.foldl (fun s f => s + f.carbs) 0
    fat := foods.foldl (fun s f => s + f.fat) 0 }

/-- The daily-summary fold of `handleFoodConfirmed`: with no existing row for
(user, date) insert the meal totals; with an existing row update it to
existing + totals (the `updated_at` timestamp column is not modelled). -/
def foldIntoDailySummary (existing : Option Totals) (totals : Totals) : Totals :=
  match existing with
  | none => totals
  | some s => Totals.add s totals

/-- Key of a `daily_summaries` row. -/
structure SummaryKey where
  user_id : Nat
  date : Nat
deriving DecidableEq

/-- The `daily_summaries` table, as a partial map from key to totals. -/
def SummaryStore : Type :=
  SummaryKey → Option Totals

/-- One meal save's effect on the summary table: read the (user, date) row,
then insert or additively update it, leaving every other row alone. -/
def applySummaryFold (db : SummaryStore) (k : SummaryKey) (totals : Totals) : SummaryStore :=
  fun q => if q = k then some (foldIntoDailySummary (db k) totals) else db q

/-- A persisted `meals` row, reduced to the fields the totals invariant is
about (the row id returned by the insert, and the four stored totals). -/
structure MealRow where
  id : Nat
  totals : Totals
deriving DecidableEq

/-- The persisted state for one fixed (user, date): the day's meal rows and the
day's `daily_summaries` row, if any. -/
structure DayState where
  meals : List MealRow
  summary : Option Totals
deriving DecidableEq

/-- `handleFoodConfirmed` of the main app component, restricted to one (user,
date) and to the tables the invariant mentions: insert a meal row carrying the
aggregated food totals (the row id comes back from the insert and is modelled
as the `mealId` parameter; `meal_items` rows are not modelled), then fold the
same totals into the daily summary. -/
def handleFoodConfirmed (s : DayState) (mealId : Nat) (foods : List DetectedFood) : DayState :=
  let totals := totalsOfFoods foods
  { meals := s.meals ++ [⟨mealId, totals⟩]
    summary := some (foldIntoDailySummary s.summary totals) }

/-- `deleteMeal` of MealHistory.tsx (with the confirm dialog accepted): delete
the meal row by id.  The source touches no other table: in particular the
daily summary is left as it was. -/
def deleteMeal (s : DayState) (mealId : Nat) : DayState :=
  { meals := s.meals.filter (fun m => m.id != mealId)
    summary := s.summary }

/-- Sum of the totals of a list of meal rows. -/
def sumMealTotals (meals : List MealRow) : Totals :=
  meals.foldl (fun acc m => Totals.add acc m.totals) Totals.zero

/-- The totals recorded in the day's summary row, all-zero when none exists. -/
def summaryTotals (s : DayState) : Totals :=
  s.summary.getD Totals.zero

/-- The spec's daily-summary invariant: the summary row's totals equal the sum
of the totals of the day's still-persisted meal rows. -/
def invariantHolds (s : DayState) : Prop :=
  summaryTotals s = sumMealTotals s.meals

/-- The profile fields the recommendation generator reads.  Each target is
optional; a missing column is `none`.  JavaScript's `||` fallback also treats
a stored 0 as absent, which `jsOr` reproduces. -/
structure UserProfile where
  daily_calorie_target : Option ℚ
  protein_target : Option ℚ
  carbs_target : Option ℚ
  fat_target : Option ℚ
deriving DecidableEq

/-- JavaScript `v || d` on an optional numeric field: the default applies when
the field is absent or falsy (0). -/
def jsOr (v : Option ℚ) (d : ℚ) : ℚ :=
  match v with
  | none => d
  | some x => if x = 0 then d else x

/-- Meal slots used by the generator and the meal records. -/
inductive MealType where
  | breakfast
  | lunch
  | dinner
  | snack
deriving DecidableEq

/-- One template food of a recommendation. -/
structure FoodPortion where
  name : String
  portion : ℚ
  calories : ℚ
  protein : ℚ
  carbs : ℚ
  fat : ℚ
deriving DecidableEq

/-- Interface `Recommendation` of MealRecommendations.tsx. -/
structure Recommendation where
  meal_type : MealType
  recommended_foods : List FoodPortion
  total_calories : ℤ
  reasoning : String
deriving DecidableEq

/-- The hardcoded breakfast template of `generateRecommendations`. -/
def breakfastFoods : List FoodPortion :=
  [⟨("Oatmeal"), 60, 233, 10.2, 39.6, 4.2⟩,
   ⟨("Eggs"), 100, 155, 13, 1.1, 11⟩,
   ⟨("Banana"), 120, 107, 1.3, 27.6, 0.4⟩,
   ⟨("Greek Yogurt"), 150, 89, 15, 5.4, 0.6⟩]

/-- The hardcoded lunch template of `generateRecommendations`. -/
def lunchFoods : List FoodPortion :=
  [⟨("Chicken Breast"), 150, 248, 46.5, 0, 5.4⟩,
   ⟨("Brown Rice"), 150, 167, 3.9, 34.5, 1.4⟩,
   ⟨("Broccoli"), 150, 51, 4.2, 10.5, 0.6⟩,
   ⟨("Avocado"), 50, 80, 1, 4.5, 7.5⟩]

/-- The hardcoded dinner template of `generateRecommendations`. -/
def dinnerFoods : List FoodPortion :=
  [⟨("Salmon"), 150, 312, 30, 0, 19.5⟩,
   ⟨("Sweet Potato"), 200, 172, 3.2, 40, 0.2⟩,
   ⟨("Broccoli"), 100, 34, 2.8, 7, 0.4⟩]

/-- `generateRecommendations` of MealRecommendations.tsx.  With no profile the
function alerts and returns without producing recommendations (`none`).
Otherwise each per-meal allotment is `Math.floor((target || default) / 3)`;
the protein/carbs/fat allotments are computed by the source but never stored,
so only the calorie allotment appears in the output.  The persistence of the
three rows to `meal_recommendations` is not modelled. -/
def generateRecommendations (profile : Option UserProfile) : Option (List Recommendation) :=
  match profile with
  | none => none
  | some p =>
    let caloriesPerMeal : ℤ := Int.floor (jsOr p.daily_calorie_target 2000 / 3)
    let proteinPerMeal : ℤ := Int.floor (jsOr p.protein_target 150 / 3)
    let carbsPerMeal : ℤ := Int.floor (jsOr p.carbs_target 200 / 3)
    let fatPerMeal : ℤ := Int.floor (jsOr p.fat_target 65 / 3)
    let _ := (proteinPerMeal, carbsPerMeal, fatPerMeal)
    some
      [⟨MealType.breakfast, breakfastFoods, caloriesPerMeal,
        ("High protein breakfast to start your day with sustained energy")⟩,
       ⟨MealType.lunch, lunchFoods, caloriesPerMeal,
        ("Balanced meal with lean protein and complex carbs for afternoon energy")⟩,
       ⟨MealType.dinner, dinnerFoods, caloriesPerMeal,
        ("Omega-3 rich meal with vegetables for optimal recovery and health")⟩]

/-- Fixture: the Chicken Breast catalog row of the spec's worked scenario. -/
def entry0 : CatalogEntry :=
  ⟨7, ("Chicken Breast"), 165, 31, 0, 18 / 5⟩

/-- Fixture: a one-row catalog. -/
def cat0 : List CatalogEntry :=
  [entry0]

/-- Fixture: a candidate that matches `entry0`. -/
def candC : FoodItem :=
  ⟨("Chicken Breast"), 150, 9 / 10⟩

/-- Fixture: a candidate with no catalog match. -/
def candU : FoodItem :=
  ⟨("Unicorn Meat"), 100, 4 / 5⟩

/-- Fixture: a detected food whose fields are already at display precision. -/
def sampleFoodA : DetectedFood :=
  ⟨FoodId.db 7, ("Chicken Breast"), 150, 248, 93 / 2, 0, 27 / 5, false⟩

/-- Fixture: a second detected food with a distinct id. -/
def sampleFoodB : DetectedFood :=
  ⟨FoodId.temp 1, ("Rice"), 100, 130, 27 / 10, 28, 3 / 10, true⟩


/-- Decidability of the daily-summary invariant, by unfolding to an equality
of totals. -/
instance (s : DayState) : Decidable (invariantHolds s) :=
  inferInstanceAs (Decidable (summaryTotals s = sumMealTotals s.meals))

theorem jsRound_intCast (n : ℤ) : jsRound ((n : ℚ)) = n := by
  unfold jsRound
  rw [Int.floor_int_add]
  norm_num

theorem jsRound_zero : jsRound 0 = 0 := by
  have h := jsRound_intCast 0
  simpa using h

theorem round1_zero : round1 0 = 0 := by
  unfold round1
  rw [zero_mul, jsRound_zero]
  norm_num

theorem round1_eq_self (q : ℚ) (n : ℤ) (h : q * 10 = (n : ℚ)) : round1 q = q := by
  unfold round1
  rw [h, jsRound_intCast, ← h]
  exact mul_div_cancel_right₀ q (by norm_num)

theorem map_get_eq {α β : Type} (g : α → β) :
    ∀ (l : List α) (i : Nat), (l.map g).get? i = (l.get? i).map g := by
  intro l
  induction l with
  | nil => intro i; simp
  | cons a as ih =>
    intro i
    cases i with
    | zero => simp
    | succ j => simp [ih j]

theorem enrichFrom_get_eq (catalog : List CatalogEntry) :
    ∀ (l : List FoodItem) (k i : Nat),
      (enrichFrom catalog k l).get? i = (l.get? i).map (fun f => enrichOne catalog (k + i) f) := by
  intro l
  induction l with
  | nil => intro k i; simp [enrichFrom]
  | cons f fs ih =>
    intro k i
    cases i with
    | zero => simp [enrichFrom]
    | succ j =>
      have hk : k + 1 + j = k + (j + 1) := by omega
      simpa [enrichFrom, hk] using ih (k + 1) j

theorem enrich_get_eq (catalog : List CatalogEntry) (foods : List FoodItem) (i : Nat) :
    (enrich catalog foods).get? i = (foods.get? i).map (fun f => enrichOne catalog i f) := by
  simpa using enrichFrom_get_eq catalog foods 0 i

/-- C1: for every candidate whose name has a case-insensitive substring match
in the nutrition catalog (the match the store returns being `e`), enrichment
produces, at the candidate's position, a record with matched = true, calories
equal to `Math.round` of the per-100g calories scaled by portionGrams/100, and
protein, carbs and fat each equal to the per-100g value scaled by
portionGrams/100 and rounded to 1 decimal, with the candidate's portion kept. -/
theorem enrich_matched_spec (catalog : List CatalogEntry) (foods : List FoodItem)
    (i : Nat) (f : FoodItem) (e : CatalogEntry)
    (hf : foods.get? i = some f) (he : catalogMatch catalog f.name = some e) :
    (enrich catalog foods).get? i = some (enrichOne catalog i f) ∧
    (enrichOne catalog i f).matched = true ∧
    (enrichOne catalog i f).calories =
      ((jsRound (e.calories_per_100g * (f.portionGrams / 100)) : ℤ) : ℚ) ∧
    (enrichOne catalog i f).protein = round1 (e.protein_per_100g * (f.portionGrams / 100)) ∧
    (enrichOne catalog i f).carbs = round1 (e.carbs_per_100g * (f.portionGrams / 100)) ∧
    (enrichOne catalog i f).fat = round1 (e.fat_per_100g * (f.portionGrams / 100)) ∧
    (enrichOne catalog i f).portionGrams = f.portionGrams := by
  refine ⟨?_, ?_, ?_, ?_, ?_, ?_, ?_⟩
  · rw [enrich_get_eq, hf]
    rfl
  all_goals simp [enrichOne, he, EnrichedFood.matched]

/-- Witness for C1 at the spec's worked scenario: a Chicken Breast candidate of
150 g against a catalog holding Chicken Breast at 165 kcal / 31 g protein per
100 g. -/
theorem enrich_matched_spec_witness :
    ((enrich cat0 [candC]).get? 0 = some (enrichOne cat0 0 candC) ∧
     (enrichOne cat0 0 candC).matched = true) ∧
    (enrichOne cat0 0 candC).calories = 248 ∧ (enrichOne cat0 0 candC).protein = 93 / 2 := by
  have h := enrich_matched_spec cat0 [candC] 0 candC entry0 rfl (by rfl)
  refine ⟨⟨h.1, h.2.1⟩, ?_, ?_⟩
  · rw [h.2.2.1]
    norm_num [entry0, candC, jsRound]
  · rw [h.2.2.2.1]
    norm_num [entry0, candC, round1, jsRound]

/-- C4: for every candidate with no case-insensitive substring match in the
catalog, enrichment produces, at the candidate's position, a record with
matched = false, all four nutrient fields 0, the candidate's name and
portionGrams preserved, a synthesized temporary identifier, and that
identifier distinct from the identifier of every other record of the same
enrichment pass. -/
theorem enrich_unmatched_spec (catalog : List CatalogEntry) (foods : List FoodItem)
    (i : Nat) (f : FoodItem)
    (hf : foods.get? i = some f) (hm : catalogMatch catalog f.name = none) :
    (enrich catalog foods).get? i = some (enrichOne catalog i f) ∧
    (enrichOne catalog i f).matched = false ∧
    (enrichOne catalog i f).calories = 0 ∧
    (enrichOne catalog i f).protein = 0 ∧
    (enrichOne catalog i f).carbs = 0 ∧
    (enrichOne catalog i f).fat = 0 ∧
    (enrichOne catalog i f).name = f.name ∧
    (enrichOne catalog i f).portionGrams = f.portionGrams ∧
    (enrichOne catalog i f).id = FoodId.temp i ∧
    ∀ j r2, j ≠ i → (enrich catalog foods).get? j = some r2 →
      r2.id ≠ (enrichOne catalog i f).id := by
  refine ⟨?_, ?_, ?_, ?_, ?_, ?_, ?_, ?_, ?_, ?_⟩
  · rw [enrich_get_eq, hf]
    rfl
  · simp [enrichOne, hm, EnrichedFood.matched]
  · simp [enrichOne, hm]
  · simp [enrichOne, hm]
  · simp [enrichOne, hm]
  · simp [enrichOne, hm]
  · simp [enrichOne, hm]
  · simp [enrichOne, hm]
  · simp [enrichOne, hm]
  · intro j r2 hne hj
    rw [enrich_get_eq] at hj
    cases hfj : foods.get? j with
    | none =>
      rw [hfj] at hj
      simp at hj
    | some f2 =>
      rw [hfj] at hj
      simp only [Option.map_some', Option.some.injEq] at hj
      subst hj
      cases hm2 : catalogMatch catalog f2.name with
      | some e2 => simp [enrichOne, hm, hm2]
      | none => simp [enrichOne, hm, hm2, hne]

/-- Witness for C4: the Unicorn Meat candidate of the spec's scenario, in a
pass that also enriches a matched Chicken Breast candidate; the unmatched
record's temporary id differs from the matched record's id. -/
theorem enrich_unmatched_spec_witness :
    ((enrich cat0 [candU, candC]).get? 0 = some (enrichOne cat0 0 candU) ∧
     (enrichOne cat0 0 candU).matched = false ∧
     (enrichOne cat0 0 candU).calories = 0) ∧
    (enrichOne cat0 1 candC).id ≠ (enrichOne cat0 0 candU).id :=
  have h := enrich_unmatched_spec cat0 [candU, candC] 0 candU rfl (by rfl)
  ⟨⟨h.1, h.2.1, h.2.2.1⟩,
   h.2.2.2.2.2.2.2.2.2 1 (enrichOne cat0 1 candC) (by decide) (by rfl)⟩

/-- C8: rescale is idempotent at ratio 1.  For every record whose portion is
positive and whose nutrient fields are already at the stated precisions
(whole calories; protein, carbs and fat at 1 decimal), rescaling to the
record's own current portion returns the record unchanged in all fields. -/
theorem rescale_idempotent_spec (f : DetectedFood) (hpos : 0 < f.portionGrams)
    (hc : ∃ n : ℤ, f.calories = (n : ℚ)) (hp : ∃ n : ℤ, f.protein * 10 = (n : ℚ))
    (hcb : ∃ n : ℤ, f.carbs * 10 = (n : ℚ)) (hft : ∃ n : ℤ, f.fat * 10 = (n : ℚ)) :
    rescaleFood f f.portionGrams = f := by
  obtain ⟨nc, hc⟩ := hc
  obtain ⟨np, hp⟩ := hp
  obtain ⟨nb, hb⟩ := hcb
  obtain ⟨nt, ht⟩ := hft
  have h0 : ((jsRound (f.calories * (f.portionGrams / f.portionGrams)) : ℤ) : ℚ) = f.calories := by
    rw [div_self (ne_of_gt hpos), mul_one, hc, jsRound_intCast]
  have h1 : round1 (f.protein * (f.portionGrams / f.portionGrams)) = f.protein := by
    rw [div_self (ne_of_gt hpos), mul_one]
    exact round1_eq_self f.protein np hp
  have h2 : round1 (f.carbs * (f.portionGrams / f.portionGrams)) = f.carbs := by
    rw [div_self (ne_of_gt hpos), mul_one]
    exact round1_eq_self f.carbs nb hb
  have h3 : round1 (f.fat * (f.portionGrams / f.portionGrams)) = f.fat := by
    rw [div_self (ne_of_gt hpos), mul_one]
    exact round1_eq_self f.fat nt ht
  simp only [rescaleFood, h0, h1, h2, h3]

/-- Witness for C8 on a concrete record at display precision (248 kcal,
46.5 / 0 / 5.4 grams, portion 150 g). -/
theorem rescale_idempotent_spec_witness :
    rescaleFood sampleFoodA sampleFoodA.portionGrams = sampleFoodA :=
  rescale_idempotent_spec sampleFoodA (by norm_num [sampleFoodA])
    ⟨248, by norm_num [sampleFoodA]⟩ ⟨465, by norm_num [sampleFoodA]⟩
    ⟨0, by norm_num [sampleFoodA]⟩ ⟨54, by norm_num [sampleFoodA]⟩

/-- C10: for every detected-food list, edited id and positive grams,
updatePortion keeps the list's length and order, maps each position to itself
unless its id equals the edited id, in which case it rescales the five fields
portionGrams/calories/protein/carbs/fat together while preserving id, name and
the not-in-database marker; positions with a different id are unchanged. -/
theorem updatePortion_frame_spec (foods : List DetectedFood) (editId : FoodId) (grams : ℚ)
    (_hg : 0 < grams) :
    (updatePortion foods editId grams).length = foods.length ∧
    (∀ i : Nat, (updatePortion foods editId grams).get? i =
      (foods.get? i).map (fun f => if f.id = editId then rescaleFood f grams else f)) ∧
    (∀ f : DetectedFood, (rescaleFood f grams).id = f.id ∧ (rescaleFood f grams).name = f.name ∧
      (rescaleFood f grams).notInDatabase = f.notInDatabase ∧
      (rescaleFood f grams).portionGrams = grams) ∧
    ∀ i f, foods.get? i = some f → f.id ≠ editId →
      (updatePortion foods editId grams).get? i = some f := by
  refine ⟨by simp [updatePortion], fun i => map_get_eq _ foods i,
    fun f => ⟨rfl, rfl, rfl, rfl⟩, ?_⟩
  intro i f hf hne
  unfold updatePortion
  rw [map_get_eq, hf]
  simp [hne]

/-- Witness for C10: editing the first record of a two-record list at 50 g
leaves the second record untouched. -/
theorem updatePortion_frame_spec_witness :
    (0 : ℚ) < 50 ∧
    (updatePortion [sampleFoodA, sampleFoodB] sampleFoodA.id 50).get? 1 = some sampleFoodB := by
  have h := updatePortion_frame_spec [sampleFoodA, sampleFoodB] sampleFoodA.id 50 (by norm_num)
  exact ⟨by norm_num, h.2.2.2 1 sampleFoodB rfl (by decide)⟩

theorem foldl_addFood_eq (l : List DetectedFood) :
    ∀ acc : Totals,
      l.foldl addFood acc =
        Totals.add acc ⟨(l.map DetectedFood.calories).sum, (l.map DetectedFood.protein).sum,
          (l.map DetectedFood.carbs).sum, (l.map DetectedFood.fat).sum⟩ := by
  induction l with
  | nil =>
    intro acc
    cases acc
    simp [Totals.add]
  | cons f fs ih =>
    intro acc
    simp [List.foldl_cons, ih, addFood, Totals.add, add_assoc]

/-- C9: aggregation over the empty list gives all-zero totals, and the
aggregate is invariant under every permutation of the record list. -/
theorem aggregate_perm_spec :
    totalNutrition [] = ⟨0, 0, 0, 0⟩ ∧
    ∀ l1 l2 : List DetectedFood, List.Perm l1 l2 → totalNutrition l1 = totalNutrition l2 := by
  refine ⟨rfl, fun l1 l2 h => ?_⟩
  unfold totalNutrition
  rw [foldl_addFood_eq l1, foldl_addFood_eq l2,
    (h.map DetectedFood.calories).sum_eq, (h.map DetectedFood.protein).sum_eq,
    (h.map DetectedFood.carbs).sum_eq, (h.map DetectedFood.fat).sum_eq]

/-- Witness for C9 on a concrete two-element swap. -/
theorem aggregate_perm_spec_witness :
    totalNutrition [sampleFoodA, sampleFoodB] = totalNutrition [sampleFoodB, sampleFoodA] :=
  aggregate_perm_spec.2 [sampleFoodA, sampleFoodB] [sampleFoodB, sampleFoodA]
    (List.Perm.swap sampleFoodB sampleFoodA [])

/-- C2: the daily-summary fold is an additive merge keyed by (user, date),
never a replace: starting from a store with no summary for the key, folding
totals T1 creates a summary equal to T1, and then folding T2 yields a summary
whose totals are T1 + T2 in every nutrient field. -/
theorem fold_additive_spec (db : SummaryStore) (k : SummaryKey) (t1 t2 : Totals)
    (h : db k = none) :
    applySummaryFold db k t1 k = some t1 ∧
    applySummaryFold (applySummaryFold db k t1) k t2 k = some (Totals.add t1 t2) := by
  constructor
  · simp [applySummaryFold, h, foldIntoDailySummary]
  · simp [applySummaryFold, h, foldIntoDailySummary]

/-- Witness for C2: the spec's 300-then-200 calorie scenario on an empty
store, giving a 500-calorie summary. -/
theorem fold_additive_spec_witness :
    ((fun _ => none : SummaryStore) ⟨1, 20260101⟩ = none) ∧
    (applySummaryFold (fun _ => none) ⟨1, 20260101⟩ ⟨300, 20, 30, 10⟩ ⟨1, 20260101⟩ =
        some ⟨300, 20, 30, 10⟩ ∧
      applySummaryFold (applySummaryFold (fun _ => none) ⟨1, 20260101⟩ ⟨300, 20, 30, 10⟩)
          ⟨1, 20260101⟩ ⟨200, 10, 20, 5⟩ ⟨1, 20260101⟩ =
        some (Totals.add ⟨300, 20, 30, 10⟩ ⟨200, 10, 20, 5⟩)) :=
  ⟨rfl, fold_additive_spec (fun _ => none) ⟨1, 20260101⟩ ⟨300, 20, 30, 10⟩ ⟨200, 10, 20, 5⟩ rfl⟩

/-- C5 counterexample: `updatePortion` does not reject a non-positive portion.
Editing a 100 g record to 0 g silently produces output and changes the
record (portion 0, all nutrients zeroed) instead of leaving it unchanged. -/
theorem updatePortion_nonpositive_cex :
    updatePortion [sampleFoodB] (FoodId.temp 1) 0 ≠ [sampleFoodB] ∧
    updatePortion [sampleFoodB] (FoodId.temp 1) 0 =
      [⟨FoodId.temp 1, ("Rice"), 0, 0, 0, 0, 0, true⟩] := by
  have he : updatePortion [sampleFoodB] (FoodId.temp 1) 0 =
      [⟨FoodId.temp 1, ("Rice"), 0, 0, 0, 0, 0, true⟩] := by
    simp only [updatePortion, List.map_cons, List.map_nil, sampleFoodB, rescaleFood]
    norm_num [jsRound, round1]
  refine ⟨?_, he⟩
  rw [he]
  intro h
  have h2 := congrArg (fun l => l.map DetectedFood.portionGrams) h
  norm_num [sampleFoodB] at h2

/-- C5 amended: `updatePortion` performs no validation; a portion edit with
grams = 0 on a record with positive current portion is applied like any other
edit, rescaling the record to portion 0 with all four nutrients 0. -/
theorem updatePortion_zero_amended (f : DetectedFood) (_h : 0 < f.portionGrams) :
    updatePortion [f] f.id 0 =
      [{ f with portionGrams := 0, calories := 0, protein := 0, carbs := 0, fat := 0 }] := by
  have hz : (0 : ℚ) / f.portionGrams = 0 := zero_div f.portionGrams
  simp [updatePortion, rescaleFood, hz, jsRound_zero, round1_zero]

/-- Witness for C5's amended statement on a concrete 100 g record. -/
theorem updatePortion_zero_amended_witness :
    (0 : ℚ) < sampleFoodB.portionGrams ∧
    updatePortion [sampleFoodB] sampleFoodB.id 0 =
      [{ sampleFoodB with portionGrams := 0, calories := 0, protein := 0, carbs := 0, fat := 0 }] :=
  ⟨by norm_num [sampleFoodB], updatePortion_zero_amended sampleFoodB (by norm_num [sampleFoodB])⟩

theorem totals_zero_add (t : Totals) : Totals.add Totals.zero t = t := by
  cases t
  simp [Totals.add, Totals.zero]

theorem sumMealTotals_append (l : List MealRow) (m : MealRow) :
    sumMealTotals (l ++ [m]) = Totals.add (sumMealTotals l) m.totals := by
  simp [sumMealTotals, List.foldl_append]

/-- C6 counterexample: deleting a meal breaks the summary invariant.  Saving
one meal into an empty day and then deleting that meal leaves the daily
summary at the meal's totals while the persisted-meal sum is zero. -/
theorem summary_invariant_delete_cex :
    ¬ invariantHolds (deleteMeal (handleFoodConfirmed ⟨[], none⟩ 1 [sampleFoodA]) 1) := by
  intro h
  unfold invariantHolds at h
  have h2 := congrArg Totals.calories h
  norm_num [deleteMeal, handleFoodConfirmed, totalsOfFoods, sampleFoodA,
    foldIntoDailySummary, summaryTotals, sumMealTotals, Totals.zero] at h2

/-- C6 amended: meal saves do preserve the invariant (the summary totals equal
the sum of the day's persisted meal totals after every save), but deleteMeal
removes only the meal row and leaves the daily summary untouched, so the
invariant is not restored by deletion. -/
theorem save_preserves_invariant_amended (s : DayState) (mealId : Nat)
    (foods : List DetectedFood) (t : DayState) (delId : Nat)
    (h : invariantHolds s) :
    invariantHolds (handleFoodConfirmed s mealId foods) ∧
    (deleteMeal t delId).summary = t.summary := by
  refine ⟨?_, rfl⟩
  unfold invariantHolds at h ⊢
  unfold handleFoodConfirmed
  cases hs : s.summary with
  | none =>
    have h0 : Totals.zero = sumMealTotals s.meals := by
      rw [← h]
      simp [summaryTotals, hs]
    simp [summaryTotals, foldIntoDailySummary, hs, sumMealTotals_append, ← h0, totals_zero_add]
  | some x =>
    have hx : x = sumMealTotals s.meals := by
      rw [← h]
      simp [summaryTotals, hs]
    simp [summaryTotals, foldIntoDailySummary, hs, sumMealTotals_append, ← hx]

/-- Witness for C6's amended statement: one save into an empty day keeps the
invariant, and a delete on a day with a summary leaves that summary as it was. -/
theorem save_preserves_invariant_amended_witness :
    invariantHolds (⟨[], none⟩ : DayState) ∧
    (invariantHolds (handleFoodConfirmed ⟨[], none⟩ 1 [sampleFoodA]) ∧
      (deleteMeal ⟨[], some ⟨1, 2, 3, 4⟩⟩ 9).summary =
        (⟨[], some ⟨1, 2, 3, 4⟩⟩ : DayState).summary) :=
  ⟨rfl, save_preserves_invariant_amended ⟨[], none⟩ 1 [sampleFoodA] ⟨[], some ⟨1, 2, 3, 4⟩⟩ 9 rfl⟩

/-- C7 counterexample: a profile whose daily_calorie_target is present but 0
is falsy for JavaScript's `||`, so the generator silently falls back to the
2000 default and emits total_calories 666 for each meal, not
floor(0 / 3) = 0 as the claim's equation requires. -/
theorem generate_zero_target_cex :
    (generateRecommendations (some ⟨some 0, none, none, none⟩)).map
        (fun l => l.map (fun r => r.total_calories)) = some [666, 666, 666] ∧
    Int.floor ((0 : ℚ) / 3) = 0 ∧ (666 : ℤ) ≠ 0 := by
  refine ⟨?_, by norm_num, by norm_num⟩
  simp [generateRecommendations, jsOr]
  norm_num

/-- C7 amended: with no profile the generator refuses (`none`).  With a
profile it returns exactly 3 recommendations typed breakfast, lunch, dinner;
each total_calories equals floor(daily_calorie_target / 3) whenever the stored
target is truthy (present and nonzero), while an absent target falls back to
the 2000 default (and a stored 0 behaves like an absent one, per the
counterexample). -/
theorem generate_recs_amended (p q : UserProfile) (c : ℚ)
    (hc : p.daily_calorie_target = some c) (hnz : c ≠ 0)
    (hq : q.daily_calorie_target = none) :
    generateRecommendations none = none ∧
    (generateRecommendations (some p)).map List.length = some 3 ∧
    (generateRecommendations (some p)).map (fun l => l.map Recommendation.meal_type) =
      some [MealType.breakfast, MealType.lunch, MealType.dinner] ∧
    (generateRecommendations (some p)).map (fun l => l.map Recommendation.total_calories) =
      some [Int.floor (c / 3), Int.floor (c / 3), Int.floor (c / 3)] ∧
    (generateRecommendations (some q)).map (fun l => l.map Recommendation.total_calories) =
      some [Int.floor ((2000 : ℚ) / 3), Int.floor ((2000 : ℚ) / 3),
        Int.floor ((2000 : ℚ) / 3)] := by
  refine ⟨rfl, ?_, ?_, ?_, ?_⟩ <;>
    simp [generateRecommendations, jsOr, hc, hq, hnz]

/-- Witness for C7's amended statement at a 3000-calorie target. -/
theorem generate_recs_amended_witness :
    (generateRecommendations (some ⟨some 3000, none, none, none⟩)).map List.length = some 3 ∧
    Int.floor ((3000 : ℚ) / 3) = 1000 :=
  ⟨(generate_recs_amended ⟨some 3000, none, none, none⟩ ⟨none, none, none, none⟩ 3000 rfl
      (by norm_num) rfl).2.1,
   by norm_num⟩

/-- C3 counterexample: a vision-inference fetch that throws (network error or
timeout) propagates to the handler's top-level catch and yields status 500,
not the 200-with-empty-foods degradation the claim requires. -/
theorem detect_timeout_cex :
    (detectFoodHandler true true true VisionOutcome.throws []).status = 500 ∧
    (500 : Nat) ≠ 200 :=
  ⟨rfl, by norm_num⟩

/-- C3 amended: an upstream response that is delivered but carries no
parseable candidate array (missing candidates, or candidate text without an
array substring), and likewise the no-API-key path, degrade to a 200 response
with an empty foods list and an advisory message; but an upstream call that
throws (network error, timeout, unparseable transport JSON, or an array
substring on which the JSON parse throws) reaches the top-level catch and
returns a 500 response. -/
theorem detect_degrade_amended (hasKey : Bool) (v : VisionOutcome) (catalog : List CatalogEntry) :
    ((v = VisionOutcome.noCandidates ∨ v = VisionOutcome.noArrayInText ∨ hasKey = false) →
      detectFoodHandler true true hasKey v catalog =
        ⟨200, RespBody.foodsEmptyWithMessage ("No foods detected. Please add manually.")⟩) ∧
    ((v = VisionOutcome.throws ∨ v = VisionOutcome.badArray) → hasKey = true →
      (detectFoodHandler true true hasKey v catalog).status = 500) := by
  constructor
  · rintro (rfl | rfl | rfl)
    · cases hasKey <;> rfl
    · cases hasKey <;> rfl
    · cases v <;> rfl
  · rintro (rfl | rfl) rfl <;> rfl

/-- Witness for C3's amended statement: a delivered response without
candidates yields the 200 degradation; a throwing JSON parse yields 500. -/
theorem detect_degrade_amended_witness :
    detectFoodHandler true true true VisionOutcome.noCandidates [] =
      ⟨200, RespBody.foodsEmptyWithMessage ("No foods detected. Please add manually.")⟩ ∧
    (detectFoodHandler true true true VisionOutcome.badArray []).status = 500 :=
  ⟨(detect_degrade_amended true VisionOutcome.noCandidates []).1 (Or.inl rfl),
   (detect_degrade_amended true VisionOutcome.badArray []).2 (Or.inr rfl) rfl⟩
